import Mathlib

/-!
Shallow embedding of the pyenvisalink client core
(`src/pyenvisalink/envisalink_base_client.py` and
`src/pyenvisalink/honeywell_client.py`), together with proofs checking the
natural-language specification against the code.

Python strings are modelled as `List Char`; Python numbers (timestamps,
delays, timeouts) as `ℚ`, which is exact for every comparison the code
performs on them; fallible Python code is modelled with `Option`/`Except`.
-/

/-- Python strings, modelled as lists of characters. -/
abbrev PyStr := List Char

/-- Characters removed by Python `str.strip()` (whitespace). -/
def isPySpace (c : Char) : Bool :=
  c = ' ' || c = '\t' || c = '\n' || c = '\r' || c = '\x0b' || c = '\x0c'

/-- Python `str.strip()`: drop leading and trailing whitespace. -/
def pyStrip (s : PyStr) : PyStr :=
  ((s.dropWhile isPySpace).reverse.dropWhile isPySpace).reverse

/-- Python `str.split(s, '\r\n')`: split on the two-character separator. -/
def splitOnCRLF : PyStr → List PyStr
  | [] => [[]]
  | '\r' :: '\n' :: rest => [] :: splitOnCRLF rest
  | c :: rest =>
    match splitOnCRLF rest with
    | [] => [[c]]
    | l :: ls => (c :: l) :: ls

/-- Python `str.split(sep)` for a one-character separator. -/
def splitOnChar (sep : Char) : PyStr → List PyStr
  | [] => [[]]
  | c :: rest =>
    if c = sep then [] :: splitOnChar sep rest
    else
      match splitOnChar sep rest with
      | [] => [[c]]
      | l :: ls => (c :: l) :: ls

/-- Python `sep.join(pieces)` for a one-character separator. -/
def joinWithChar (sep : Char) : List PyStr → PyStr
  | [] => []
  | [l] => l
  | l :: ls => l ++ sep :: joinWithChar sep ls

/-- Value of a single hexadecimal digit, `none` on a non-hex character. -/
def hexDigitVal (c : Char) : Option ℕ :=
  if '0' ≤ c ∧ c ≤ '9' then some (c.toNat - '0'.toNat)
  else if 'a' ≤ c ∧ c ≤ 'f' then some (c.toNat - 'a'.toNat + 10)
  else if 'A' ≤ c ∧ c ≤ 'F' then some (c.toNat - 'A'.toNat + 10)
  else none

/-- Whether a character is a hexadecimal digit. -/
def isHexDigit (c : Char) : Bool := (hexDigitVal c).isSome

/-- Python `int(s, 16)` on the strings the client feeds it: succeeds exactly
when the string is non-empty and all hex digits (`ValueError` otherwise,
modelled as `none`). -/
def parseHex (s : PyStr) : Option ℕ :=
  if s = [] then none
  else s.foldl (fun acc c => acc.bind fun a => (hexDigitVal c).map fun d => 16 * a + d)
    (some 0)

/-- Value of a single decimal digit, `none` on a non-digit. -/
def decDigitVal (c : Char) : Option ℕ :=
  if '0' ≤ c ∧ c ≤ '9' then some (c.toNat - '0'.toNat) else none

/-- Python `int(s)` on the strings the client feeds it: succeeds exactly when
the string is non-empty and all decimal digits (`ValueError` otherwise,
modelled as `none`). -/
def parseDec (s : PyStr) : Option ℕ :=
  if s = [] then none
  else s.foldl (fun acc c => acc.bind fun a => (decDigitVal c).map fun d => 10 * a + d)
    (some 0)

/-! ## Protocol framer (`HoneywellClient.parseHandler`) -/

/-- A parsed inbound message: the `cmd['code']` / `cmd['data']` entries that
`parseHandler` fills in (the sentinel is kept on the code). -/
structure Msg where
  code : PyStr
  data : PyStr
  deriving DecidableEq, Repr

/-- `re.sub("[\r\n]", "", rawInput)`: remove every CR and LF character. -/
def stripCRLFChars (s : PyStr) : PyStr :=
  s.filter fun c => c ≠ '\r' && c ≠ '\n'

/-- The frame-start sentinel characters of the protocol (`[%\^]`). -/
def isSentinel (c : Char) : Bool := c = '%' || c = '^'

/-- `HoneywellClient.parseHandler`, post-login branch
(honeywell_client.py lines 86–140).  Returns the pair the source returns:
the parsed message (if a complete frame was present) and the unconsumed
remainder of the input (if any).  `re.match` anchors at the start of the
string, so the sentinel is only recognised as the first character and the
`start_idx != 0` branch of the source is unreachable. -/
def parseHandlerPost (rawInput : PyStr) : Option Msg × Option PyStr :=
  let r := stripCRLFChars rawInput
  match r with
  | [] => (none, none)
  | c :: _ =>
    if ¬ isSentinel c then
      -- No sentinel, so the data is ignored (logged as unrecognized).
      (none, none)
    else
      match r.findIdx? (· = '$') with
      | none =>
        -- We don't have the full command yet; the remainder is returned.
        (none, some r)
      | some endIdx =>
        let inputList := r.take endIdx
        let cmd :=
          match inputList.findIdx? (· = ',') with
          | none => Msg.mk inputList []
          | some sepIdx => Msg.mk (inputList.take sepIdx) (inputList.drop (sepIdx + 1))
        (some cmd, some (r.drop (endIdx + 1)))

/-- `HoneywellClient.parseHandler`, pre-login branch
(honeywell_client.py lines 76–85): the maximal prefix of characters other
than CR, LF and the sentinels is the login-challenge code (empty data);
an empty match means the full login response has not arrived yet. -/
def parseHandlerPre (rawInput : PyStr) : Option Msg × Option PyStr :=
  let span := rawInput.takeWhile fun c => ¬(c = '\r' || c = '\n' || c = '%' || c = '^')
  if span = [] then (none, none)
  else (some (Msg.mk span []), some (rawInput.drop span.length))

/-- `HoneywellClient.parseHandler` (honeywell_client.py lines 72–140),
branching on the logged-in flag. -/
def parseHandler (loggedin : Bool) (rawInput : PyStr) : Option Msg × Option PyStr :=
  if loggedin then parseHandlerPost rawInput else parseHandlerPre rawInput

/-! ## Inbound dispatch (`EnvisalinkClient.data_received`) -/

/-- The sequence of `(code, data)` messages extracted when a chunk is fed to
`EnvisalinkClient.data_received` (envisalink_base_client.py lines 201–235):
the chunk is stripped, split on CRLF, and `parseHandler` is called once per
line.  The second component of `parseHandler`'s return value — the
unconsumed remainder — is discarded by `data_received`, so no partial frame
is ever carried over to the next chunk. -/
def dataReceivedMsgs (loggedin : Bool) (chunk : PyStr) : List Msg :=
  (splitOnCRLF (pyStrip chunk)).filterMap fun line => (parseHandler loggedin line).1

/-- Python exceptions raised (and sometimes caught) by the client code. -/
inductive PyErr where
  | typeError
  | nameError
  deriving DecidableEq, Repr

/-- Subscripting the value returned by `HoneywellClient.parseHandler` with a
string key, as `data_received` does with `cmd['handler']`, `cmd['code']`,
`cmd['data']` and `cmd['callback']`.  `parseHandler` returns a 2-tuple, and
in Python subscripting a tuple with a `str` key unconditionally raises
`TypeError`. -/
def tupleSubscriptStr (_t : Option Msg × Option PyStr) (_key : PyStr) : Except PyErr PyStr :=
  .error .typeError

/-- The handler invocations performed by `data_received` for one chunk:
for each line the code evaluates `cmd['handler']` inside a
`try … except (AttributeError, TypeError, KeyError)` block, so the
`TypeError` from subscripting the tuple is caught and no handler is ever
invoked; the callback stage (`cmd['callback']`) fails the same way. -/
def dataReceivedHandlerCalls (loggedin : Bool) (chunk : PyStr) : List (PyStr × Msg) :=
  (splitOnCRLF (pyStrip chunk)).foldr
    (fun line acc =>
      let cmd := parseHandler loggedin line
      match tupleSubscriptStr cmd ('h' :: "andler".toList) with
      | .error _ => acc        -- caught by the except clause; logged and skipped
      | .ok h =>
        match cmd.1 with
        | some m => (h, m) :: acc
        | none => acc)
    []


/-! ## Zone-timer decoder (`EnvisalinkClient.convertZoneDump`) -/

/-- One entry of the list returned by `convertZoneDump`. -/
structure ZoneInfo where
  zone : ℕ
  status : PyStr
  seconds : ℤ
  deriving DecidableEq, Repr

/-- `re.findall('....', s)`: the consecutive non-overlapping groups of four
characters, dropping any shorter remainder. -/
def chunk4 : PyStr → List PyStr
  | a :: b :: c :: d :: rest => [a, b, c, d] :: chunk4 rest
  | _ => []

/-- The byte-pair swap performed on each four-character word: the source
builds `swapedBytes` by inserting `inputItem[0:2]` and then `inputItem[2:4]`
each at position 0, so the two halves end up exchanged. -/
def swapHalves (w : PyStr) : PyStr := w.drop 2 ++ w.take 2

/-- The dictionary appended for one word of the zone dump
(envisalink_base_client.py lines 244–267): swap the halves, parse as hex,
`itemTicks = 65536 - itemInt`, `itemSeconds = itemTicks * 5`, status
`'open'` when below 30 seconds, else `'closed'`.  `none` models the
`ValueError` of `int(…, 16)` on a non-hex word. -/
def zoneEntry (z : ℕ) (w : PyStr) : Option ZoneInfo :=
  (parseHex (swapHalves w)).map fun (itemInt : ℕ) =>
    let itemSeconds : ℤ := (65536 - (itemInt : ℤ)) * 5
    ZoneInfo.mk z (if itemSeconds < 30 then "open".toList else "closed".toList) itemSeconds

/-- The loop body of `convertZoneDump`: accumulate one entry per word,
numbering zones from `z` upward; any parse failure aborts the whole call. -/
def zoneDumpGo (z : ℕ) : List PyStr → Option (List ZoneInfo)
  | [] => some []
  | w :: ws =>
    match zoneEntry z w with
    | none => none
    | some item => (zoneDumpGo (z + 1) ws).map (item :: ·)

/-- `EnvisalinkClient.convertZoneDump` (envisalink_base_client.py
lines 237–269). -/
def convertZoneDump (theString : PyStr) : Option (List ZoneInfo) :=
  zoneDumpGo 1 (chunk4 theString)


/-! ## Command queue and operation state machine -/

/-- `EnvisalinkClient.Operation.State`. -/
inductive OpState where
  | queued
  | sent
  | succeeded
  | retry
  | failed
  deriving DecidableEq, Repr

/-- `EnvisalinkClient.Operation`: one queued outbound command.  Timestamps
and delays are rationals; `retryDelay` starts at `1/10` (100ms). -/
structure Operation where
  cmd : PyStr
  data : PyStr
  code : Option PyStr
  state : OpState
  retryDelay : ℚ
  expiryTime : ℚ
  deriving DecidableEq, Repr

/-- `EnvisalinkClient.queue_command` (envisalink_base_client.py
lines 323–328): append a fresh QUEUED operation whose `expiryTime` is
`now + command_timeout`. -/
def queue_command (cmd data : PyStr) (code : Option PyStr) (now timeout : ℚ)
    (q : List Operation) : List Operation :=
  q ++ [Operation.mk cmd data code OpState.queued (1/10) (now + timeout)]

/-- Python truthiness of the `cmd` argument of `command_succeeded`:
`None` and the empty string are falsy. -/
def pyTruthy : Option PyStr → Bool
  | none => false
  | some s => !s.isEmpty

/-- `EnvisalinkClient.command_succeeded` (envisalink_base_client.py
lines 395–408): with a non-empty queue, if `cmd` is truthy and differs from
the head's command, only an error is logged; otherwise the head is marked
SUCCEEDED.  With an empty queue, only an error is logged. -/
def command_succeeded (cmd : Option PyStr) : List Operation → List Operation
  | [] => []
  | op :: rest =>
    if pyTruthy cmd && decide (some op.cmd ≠ cmd) then op :: rest
    else { op with state := OpState.succeeded } :: rest

/-- `EnvisalinkClient.command_failed` (envisalink_base_client.py
lines 410–437): only a head in state SENT is affected.  With `retry` false
the head is marked FAILED; otherwise `retryDelay` is doubled first, and the
head is marked FAILED when the doubled delay reaches `command_timeout`, else
RETRY with `expiryTime = now + retryDelay`. -/
def command_failed (retry : Bool) (now timeout : ℚ) : List Operation → List Operation
  | [] => []
  | op :: rest =>
    if op.state ≠ OpState.sent then op :: rest
    else if retry = false then { op with state := OpState.failed } :: rest
    else
      let d := op.retryDelay * 2
      if d ≥ timeout then { op with retryDelay := d, state := OpState.failed } :: rest
      else { op with retryDelay := d, state := OpState.retry, expiryTime := now + d } :: rest

/-- Measure for the inner `while self._commandQueue:` loop of
`process_command_queue`: every iteration either pops the head or strictly
lowers the head's rank (RETRY → QUEUED → SENT), so the loop terminates. -/
def stateRank : OpState → ℕ
  | OpState.queued => 1
  | OpState.retry => 2
  | _ => 0

/-- Measure on queues for the termination of `processPass`. -/
def queueMeasure : List Operation → ℕ
  | [] => 0
  | op :: rest => 4 * (rest.length + 1) + stateRank op.state

theorem stateRank_le_two (s : OpState) : stateRank s ≤ 2 := by
  cases s <;> simp [stateRank]

theorem queueMeasure_le (q : List Operation) : queueMeasure q ≤ 4 * q.length + 2 := by
  cases q with
  | nil => simp [queueMeasure]
  | cons op rest =>
    have := stateRank_le_two op.state
    simp [queueMeasure]
    omega

/-- One pass of the inner loop of `EnvisalinkClient.process_command_queue`
(envisalink_base_client.py lines 341–370), at time `now`.  Returns the
resulting queue together with the list of `(cmd, data)` argument pairs the
loop passes to `self.send_command` (in order).  A SENT head stops the scan,
first becoming FAILED if its expiry has passed; a QUEUED head becomes SENT
and is sent, and the scan continues; SUCCEEDED and FAILED heads are popped;
a RETRY head whose expiry has passed becomes QUEUED again, otherwise the
scan stops. -/
def processPass (now : ℚ) : List Operation → List Operation × List (PyStr × PyStr)
  | [] => ([], [])
  | op :: rest =>
    if op.state = OpState.sent then
      if now ≥ op.expiryTime then ({ op with state := OpState.failed } :: rest, [])
      else (op :: rest, [])
    else if hq : op.state = OpState.queued then
      let res := processPass now ({ op with state := OpState.sent } :: rest)
      (res.1, (op.cmd, op.data) :: res.2)
    else if op.state = OpState.succeeded then processPass now rest
    else if hr : op.state = OpState.retry then
      if now ≥ op.expiryTime then processPass now ({ op with state := OpState.queued } :: rest)
      else (op :: rest, [])
    else processPass now rest
  termination_by q => queueMeasure q
  decreasing_by
  · simp [queueMeasure, stateRank, hq]
  · have h := queueMeasure_le rest
    have hm : queueMeasure (op :: rest) = 4 * (rest.length + 1) + stateRank op.state := rfl
    omega
  · simp [queueMeasure, stateRank, hr]
  · have h := queueMeasure_le rest
    have hm : queueMeasure (op :: rest) = 4 * (rest.length + 1) + stateRank op.state := rfl
    omega

/-- The body of `HoneywellClient.send_command` (honeywell_client.py
lines 29–32) builds this frame (`'^' + code + ',' + data + '$'`). -/
def send_command_frame (code data : PyStr) : PyStr :=
  '^' :: code ++ ',' :: data ++ ['$']

/-- `EnvisalinkClient.send_data` (envisalink_base_client.py lines 138–147)
appends CRLF before writing to the transport. -/
def send_data_wire (data : PyStr) : PyStr := data ++ ['\r', '\n']

/-! ## Events driving the command queue

The mutators of the queue are `queue_command`, `command_succeeded`,
`command_failed`, and passes of the `process_command_queue` loop; the
asyncio event loop interleaves them in some order, each running to
completion over the shared queue. -/

/-- One atomic mutation of the command queue. -/
inductive QueueEvent where
  | enqueue (cmd data : PyStr) (code : Option PyStr) (now : ℚ)
  | ack (cmd : Option PyStr)
  | nak (retry : Bool) (now : ℚ)
  | pass (now : ℚ)

/-- Apply one event to the queue (`timeout` is the panel's
`command_timeout`). -/
def applyEvent (timeout : ℚ) (q : List Operation) : QueueEvent → List Operation
  | QueueEvent.enqueue cmd data code now => queue_command cmd data code now timeout q
  | QueueEvent.ack cmd => command_succeeded cmd q
  | QueueEvent.nak retry now => command_failed retry now timeout q
  | QueueEvent.pass now => (processPass now q).1

/-- The queue after an interleaving of events, starting from empty. -/
def runEvents (timeout : ℚ) (es : List QueueEvent) : List Operation :=
  es.foldl (applyEvent timeout) []

/-! ## Command responses (`HoneywellClient.handle_command_response`) -/

/-- Modelled from the spec: the table `evl_TPI_Response_Codes` lives in
`honeywell_envisalinkdefs.py`, which is not part of the sources; per the
spec it maps each recognized device acknowledgement code to a message and a
retry flag (`00` is the success acknowledgement; other recognized codes are
negative acknowledgements, some retryable such as a buffer overrun).  The
returned Boolean is the table entry's `retry` flag. -/
def evl_TPI_Response_Codes : PyStr → Option Bool
  | ['0', '0'] => some false
  | ['0', '1'] => some true
  | ['0', '2'] => some false
  | ['0', '3'] => some false
  | _ => none

/-- The effect `handle_command_response` has on the command queue. -/
inductive CmdRespEffect where
  | ackHead (cmd : Option PyStr)
  | nakHead (retry : Bool)
  deriving DecidableEq, Repr

/-- `HoneywellClient.handle_command_response` (honeywell_client.py
lines 149–161).  For a recognized `data`: on `'00'` it calls
`command_succeeded(code[1:])`; otherwise the source evaluates
`errorInfo['retry']` — but `errorInfo` is an unbound name (the lookup was
stored in `responseInfo`), so a `NameError` is raised before
`command_failed` can be called.  An unrecognized `data` calls
`command_failed(retry=False)`. -/
def handle_command_response (code data : PyStr) : Except PyErr CmdRespEffect :=
  match evl_TPI_Response_Codes data with
  | some _retryFlag =>
    if data = ['0', '0'] then Except.ok (CmdRespEffect.ackHead (some (code.drop 1)))
    else Except.error PyErr.nameError
  | none => Except.ok (CmdRespEffect.nakHead false)

/-! ## Keypad updates (`HoneywellClient.handle_keypad_update`) -/

/-- Why `handle_keypad_update` performed no update: the explicit rejection
of a payload containing `'%'`, or a Python exception from `int(…)` /
missing fields (`ValueError` / `IndexError`). -/
inductive KeypadErr where
  | rejected
  | parseError
  deriving DecidableEq, Repr

/-- The update `handle_keypad_update` applies to the shared alarm state:
the partition number, the raw 16-bit LED-flag word (its individual bits are
unpacked through the `IconLED_Flags` bitfield of the external definitions
module), the user/zone field, the beep text and the alpha display text. -/
structure KeypadUpdate where
  partition : ℕ
  flagsShort : ℕ
  userZone : ℕ
  beep : PyStr
  alpha : PyStr
  deriving DecidableEq, Repr

/-- `HoneywellClient.handle_keypad_update` (honeywell_client.py
lines 164–203), parameterised by the external beep-code table
(`evl_Virtual_Keypad_How_To_Beep`, looked up with default `'unknown'`).
The payload is split on commas; fields beyond the fifth are rejoined into
the display text; a payload containing `'%'` is rejected outright
(`'^'` is not checked); then the numeric fields are parsed and the shared
state for the given partition is updated. -/
def handle_keypad_update (beepTable : PyStr → Option PyStr) (data : PyStr) :
    Except KeypadErr KeypadUpdate :=
  let dataList0 := splitOnChar ',' data
  let dataList :=
    if 5 < dataList0.length then dataList0.take 4 ++ [joinWithChar ',' (dataList0.drop 4)]
    else dataList0
  if data.contains '%' then Except.error KeypadErr.rejected
  else
    match parseDec (dataList.getD 0 []),
          (dataList.get? 1).bind parseHex,
          (dataList.get? 2).bind parseDec,
          dataList.get? 3, dataList.get? 4 with
    | some partitionNumber, some flagsShort, some userZoneField, some d3, some alpha =>
      Except.ok (KeypadUpdate.mk partitionNumber flagsShort userZoneField
        ((beepTable d3).getD "unknown".toList) alpha)
    | _, _, _, _, _ => Except.error KeypadErr.parseError

/-! ## Partition state changes (`HoneywellClient.handle_partition_state_change`) -/

/-- The per-partition status fields this handler touches; `armed` defaults
to `False` (`.get('armed', False)` in the source). -/
structure PartitionStatus where
  armed : Bool := false
  ready : Bool := false
  exitDelay : Bool := false
  entryDelay : Bool := false
  deriving DecidableEq, Repr

/-- The slice of the shared alarm state this handler touches: the top-level
`arm` / `disarm` / `cancel` keys and the per-partition status records. -/
structure AlarmState where
  arm : Bool
  disarm : Bool
  cancel : Bool
  partition : ℕ → PartitionStatus

/-- The two-character status code for partition index `i`
(`data[currentIndex * 2:(currentIndex * 2) + 2]`). -/
def sliceCode (data : PyStr) (i : ℕ) : PyStr := (data.drop (2 * i)).take 2

/-- Whether a partition state name counts as armed
(`partitionState['name'] in ('ARMED_STAY', 'ARMED_AWAY', 'ARMED_MAX')`). -/
def isArmedName (name : PyStr) : Bool :=
  name = "ARMED_STAY".toList || name = "ARMED_AWAY".toList || name = "ARMED_MAX".toList

/-- One iteration of the loop of `handle_partition_state_change`
(honeywell_client.py lines 244–258) for partition index `i` with resolved
state name `name`: overwrite the top-level `arm`/`disarm`/`cancel` keys,
then update the partition's status record (with `NOT_READY` forcing
`ready` to false). -/
def partitionStep (st : AlarmState) (i : ℕ) (name : PyStr) : AlarmState :=
  let partitionNumber := i + 1
  let previouslyArmed := (st.partition partitionNumber).armed
  let armed := isArmedName name
  let isEED := name = "EXIT_ENTRY_DELAY".toList
  let st1 : AlarmState := { st with arm := !armed, disarm := armed, cancel := isEED }
  let ps : PartitionStatus :=
    { st1.partition partitionNumber with
      exitDelay := isEED && !previouslyArmed
      entryDelay := isEED && previouslyArmed
      armed := armed
      ready := name = "READY".toList || name = "READY_BYPASS".toList }
  let ps := if name = "NOT_READY".toList then { ps with ready := false } else ps
  { st1 with partition := fun n => if n = partitionNumber then ps else st1.partition n }

/-- The loop of `handle_partition_state_change` over partition indices,
aborting with `none` when a status code is missing from the table
(`KeyError`). -/
def partitionGo (table : PyStr → Option PyStr) (data : PyStr) :
    List ℕ → AlarmState → Option AlarmState
  | [], st => some st
  | i :: is, st =>
    match table (sliceCode data i) with
    | none => none
    | some name => partitionGo table data is (partitionStep st i name)

/-- `HoneywellClient.handle_partition_state_change` (honeywell_client.py
lines 242–258), parameterised by the external status-code table
(`evl_Partition_Status_Codes`, mapping each two-character code to a state
name): `for currentIndex in range(0, 8)`. -/
def handle_partition_state_change (table : PyStr → Option PyStr) (data : PyStr)
    (st : AlarmState) : Option AlarmState :=
  partitionGo table data (List.range 8) st

instance : Inhabited Operation :=
  ⟨Operation.mk [] [] none OpState.queued (1/10) 0⟩

/-- A freshly sent operation: just queued (retryDelay `1/10`) and then
marked SENT by the command processor. -/
def opSentFresh : Operation :=
  Operation.mk "A".toList "1".toList none OpState.sent (1/10) 20

/-- The head operation after `k` consecutive retry-failures with
`command_timeout = 20`: before each `command_failed(retry=True)` the
operation is SENT again (the processor re-sent it after its RETRY expiry). -/
def afterRetryFailures (now : ℚ) : ℕ → Operation
  | 0 => opSentFresh
  | k + 1 =>
    (command_failed true now 20 [{ afterRetryFailures now k with state := OpState.sent }]).headI

/-- The queue invariant of the spec: every SENT operation sits at the head
(equivalently, no operation in the tail is SENT). -/
def sentOnlyAtHead (q : List Operation) : Prop :=
  ∀ op ∈ q.tail, op.state ≠ OpState.sent

/-- The swapped 16-bit value of the `i`-th four-character word of a zone
dump (0 when out of range or unparsable). -/
def wordVal (s : PyStr) (i : ℕ) : ℕ :=
  (parseHex (swapHalves ((chunk4 s).getD i []))).getD 0

/-- A concrete instantiation of the external partition-status table, for
witnesses. -/
def demoStatusTable : PyStr → Option PyStr
  | ['0', '0'] => some "READY".toList
  | ['0', '1'] => some "ARMED_AWAY".toList
  | _ => none

/-- A concrete initial alarm state, for witnesses. -/
def demoAlarmState : AlarmState :=
  AlarmState.mk false false false fun _ => PartitionStatus.mk false false false false

/-! ## Claim theorems -/

/-- C1: the claim states that for every valid inbound byte stream and every
split into two chunks, feeding the chunks sequentially into
`data_received`/`parseHandler` yields the same sequence of extracted
`(code, data)` messages as feeding the whole stream at once, a partial
frame being buffered and completed by the next chunk.  This fails on the
code: `data_received` discards the remainder that `parseHandler` returns
for exactly that purpose, so a frame split across the chunk boundary is
lost.  Feeding `"^A,1$"` whole (logged in) extracts one message, while
feeding `"^A,"` then `"1$"` extracts none. -/
theorem C1_chunk_split_loses_partial_frame :
    dataReceivedMsgs true "^A,1$".toList = [Msg.mk "^A".toList "1".toList]
    ∧ dataReceivedMsgs true "^A,".toList ++ dataReceivedMsgs true "1$".toList = []
    ∧ dataReceivedMsgs true "^A,".toList ++ dataReceivedMsgs true "1$".toList
        ≠ dataReceivedMsgs true "^A,1$".toList := by
  decide

/-- C2: the claim states that for every resolved inbound message
`data_received` invokes the mapped handler with `(code, data)` and then the
mapped callback with the handler's result.  This fails on the code:
`parseHandler` returns the tuple `(cmd, remainder)` while `data_received`
subscripts that return value with the string keys `'handler'` and
`'callback'`, which raises `TypeError` on a tuple; the exception is caught
by the surrounding `except (AttributeError, TypeError, KeyError)` clause,
so no handler or callback is ever invoked, even for a line from which a
complete message was parsed. -/
theorem C2_handler_never_invoked :
    (parseHandler true "^00,1$".toList).1 = some (Msg.mk "^00".toList "1".toList)
    ∧ dataReceivedHandlerCalls true "^00,1$".toList = [] := by
  decide

/-- C3: the claim states that the command processor, finding the head
QUEUED, transitions it to SENT and transmits `'^' + code + ',' + data + '$'`
followed by CRLF.  The state transition and the frame text that
`send_command`/`send_data` would build both match the claim — after
`queue_command("A","1")` one pass marks the head SENT, passes `("A","1")`
to `send_command`, and the frame its body builds is `^A,1$` plus CRLF — but
in this snapshot `send_command` is an `async def` invoked without `await`
from `process_command_queue`, so its body never runs and nothing is
actually written to the transport. -/
theorem C3_pass_sends_frame_format :
    processPass 0 (queue_command "A".toList "1".toList none 0 20 [])
      = ([Operation.mk "A".toList "1".toList none OpState.sent (1/10) (0 + 20)],
         [("A".toList, "1".toList)])
    ∧ send_data_wire (send_command_frame "A".toList "1".toList) = "^A,1$\r\n".toList := by
  constructor
  · simp [queue_command, processPass]
    norm_num
  · decide

/-- C7: the claim states that every recognized negative device
acknowledgement (a known TPI response code other than `'00'`) is converted
into a state transition via `command_failed` with the table-specified retry
flag and never surfaces as an uncaught exception.  This fails on the code:
in the negative-acknowledgement branch `handle_command_response` evaluates
`errorInfo['retry']`, but `errorInfo` is an unbound name (the table lookup
was stored in `responseInfo`), so a `NameError` is raised before
`command_failed` is called — and `NameError` is not among the exception
classes that inbound processing catches. -/
theorem C7_negative_ack_raises_name_error :
    evl_TPI_Response_Codes "01".toList = some true
    ∧ handle_command_response "^00".toList "01".toList = Except.error PyErr.nameError :=
  ⟨rfl, rfl⟩

/-- C5: `command_failed` with the head SENT: with `retry` false the head
becomes FAILED; with `retry` true the head's `retryDelay` is doubled and
the head becomes FAILED when the doubled delay reaches `command_timeout`,
else RETRY with `expiryTime = now + retryDelay`.  With
`command_timeout = 20` and initial delay `1/10`, the delay after `k`
consecutive retry-failures is `(1/10)·2^k`, the operation is RETRY for
`1 ≤ k ≤ 7` and FAILED first at `k = 8` (the first `k` with
`(1/10)·2^k ≥ 20`).  A head not in SENT — or an empty queue — is left
unchanged. -/
theorem C5_command_failed_behaviour (op : Operation) (rest : List Operation) (now timeout : ℚ) :
    (∀ r, command_failed r now timeout [] = [])
    ∧ (op.state ≠ OpState.sent → ∀ r, command_failed r now timeout (op :: rest) = op :: rest)
    ∧ (op.state = OpState.sent →
        command_failed false now timeout (op :: rest)
          = Operation.mk op.cmd op.data op.code OpState.failed op.retryDelay op.expiryTime :: rest
        ∧ (op.retryDelay * 2 ≥ timeout →
            command_failed true now timeout (op :: rest)
              = Operation.mk op.cmd op.data op.code OpState.failed (op.retryDelay * 2)
                  op.expiryTime :: rest)
        ∧ (op.retryDelay * 2 < timeout →
            command_failed true now timeout (op :: rest)
              = Operation.mk op.cmd op.data op.code OpState.retry (op.retryDelay * 2)
                  (now + op.retryDelay * 2) :: rest))
    ∧ (∀ k : ℕ, k ≤ 8 → (afterRetryFailures now k).retryDelay = (1/10) * 2 ^ k)
    ∧ (∀ k : ℕ, 1 ≤ k → k ≤ 7 → (afterRetryFailures now k).state = OpState.retry)
    ∧ (afterRetryFailures now 8).state = OpState.failed := by
  refine ⟨fun r => rfl, ?_, ?_, ?_, ?_, ?_⟩
  · intro h r
    simp [command_failed, h]
  · intro h
    refine ⟨by simp [command_failed, h], ?_, ?_⟩
    · intro hd
      simp [command_failed, h, hd]
    · intro hd
      simp [command_failed, h, not_le.mpr hd]
  · intro k hk
    interval_cases k <;> norm_num [afterRetryFailures, opSentFresh, command_failed]
  · intro k hk1 hk7
    interval_cases k <;> norm_num [afterRetryFailures, opSentFresh, command_failed]
  · norm_num [afterRetryFailures, opSentFresh, command_failed]

/-- C5 witness: concrete instances of `command_failed` at a SENT head. -/
theorem C5_command_failed_behaviour_witness :
    command_failed false 0 20 [opSentFresh] = [{ opSentFresh with state := OpState.failed }]
    ∧ (afterRetryFailures 0 3).retryDelay = (1/10) * 2 ^ 3
    ∧ (afterRetryFailures 0 8).state = OpState.failed := by
  refine ⟨((C5_command_failed_behaviour opSentFresh [] 0 20).2.2.1 rfl).1, ?_, ?_⟩
  · exact (C5_command_failed_behaviour opSentFresh [] 0 20).2.2.2.1 3 (by decide)
  · exact (C5_command_failed_behaviour opSentFresh [] 0 20).2.2.2.2.2

/-- C6: `command_succeeded(cmd)` with a non-empty queue marks the head
SUCCEEDED when `cmd` is unspecified (a Python-falsy value: `None` or the
empty string, matching the `if cmd` test in the source) or equals the
head's command; when `cmd` is specified and differs from the head's
command it only logs an error and leaves the entire queue — the head's
state included — unchanged; with an empty queue it changes nothing. -/
theorem C6_command_succeeded_behaviour (cmd : Option PyStr) (op : Operation)
    (rest : List Operation) :
    command_succeeded cmd [] = []
    ∧ (pyTruthy cmd = false →
        command_succeeded cmd (op :: rest) = { op with state := OpState.succeeded } :: rest)
    ∧ (cmd = some op.cmd →
        command_succeeded cmd (op :: rest) = { op with state := OpState.succeeded } :: rest)
    ∧ (pyTruthy cmd = true → cmd ≠ some op.cmd →
        command_succeeded cmd (op :: rest) = op :: rest) := by
  refine ⟨rfl, ?_, ?_, ?_⟩
  · intro h
    simp [command_succeeded, h]
  · intro h
    simp [command_succeeded, h]
  · intro h1 h2
    have h3 : some op.cmd ≠ cmd := fun hx => h2 hx.symm
    simp [command_succeeded, h1, h3]

/-- C6 witness: a mismatched acknowledgement leaves a SENT head untouched;
an unspecified acknowledgement marks it SUCCEEDED. -/
theorem C6_command_succeeded_behaviour_witness :
    command_succeeded (some "B".toList) [opSentFresh] = [opSentFresh]
    ∧ command_succeeded none [opSentFresh] = [{ opSentFresh with state := OpState.succeeded }] := by
  refine ⟨?_, ?_⟩
  · exact (C6_command_succeeded_behaviour (some "B".toList) opSentFresh []).2.2.2
      (by decide) (by decide)
  · exact (C6_command_succeeded_behaviour none opSentFresh []).2.1 rfl

/-- C9 counterexample: the claim states that a keypad-update payload
containing a stray sentinel (`'%'` or `'^'`) is rejected with no state
update, but the source only checks for `'%'`; this payload contains `'^'`
and is fully processed, updating partition 1. -/
theorem C9_caret_payload_not_rejected :
    ("1,8000,0,00,AWAY^".toList.contains '^') = true
    ∧ handle_keypad_update (fun _ => none) "1,8000,0,00,AWAY^".toList
        = Except.ok (KeypadUpdate.mk 1 32768 0 "unknown".toList "AWAY^".toList)
    ∧ handle_keypad_update (fun _ => none) "1,8000,0,00,AWAY^".toList
        ≠ Except.error KeypadErr.rejected := by
  have hb : handle_keypad_update (fun _ => none) "1,8000,0,00,AWAY^".toList
      = Except.ok (KeypadUpdate.mk 1 32768 0 "unknown".toList "AWAY^".toList) := rfl
  refine ⟨by decide, hb, ?_⟩
  rw [hb]
  intro h
  exact Except.noConfusion h

/-- C9 (amended): a keypad-update payload containing the `'%'` sentinel is
rejected outright — no alarm-state update is performed — regardless of the
beep table and of whether the other fields parse; `'^'` is not checked. -/
theorem C9_percent_payload_rejected (beepTable : PyStr → Option PyStr) (data : PyStr)
    (h : '%' ∈ data) :
    handle_keypad_update beepTable data = Except.error KeypadErr.rejected := by
  simp [handle_keypad_update, h]

/-- C9 witness: a concrete payload containing `'%'` is rejected. -/
theorem C9_percent_payload_rejected_witness :
    handle_keypad_update (fun _ => none) "1,80%0,0,00,HELLO".toList
      = Except.error KeypadErr.rejected :=
  C9_percent_payload_rejected (fun _ => none) "1,80%0,0,00,HELLO".toList (by decide)

theorem sentOnlyAtHead_nil : sentOnlyAtHead [] := by
  intro op hop
  simp at hop

theorem sentOnlyAtHead_queue_command (cmd data : PyStr) (code : Option PyStr)
    (now timeout : ℚ) (q : List Operation) (h : sentOnlyAtHead q) :
    sentOnlyAtHead (queue_command cmd data code now timeout q) := by
  cases q with
  | nil =>
    intro op hop
    simp [queue_command] at hop
  | cons a as =>
    intro op hop
    simp only [queue_command, List.cons_append, List.tail_cons] at hop
    rcases List.mem_append.mp hop with hmem | hmem
    · exact h op hmem
    · simp at hmem
      subst hmem
      simp

theorem sentOnlyAtHead_command_succeeded (cmd : Option PyStr) (q : List Operation)
    (h : sentOnlyAtHead q) : sentOnlyAtHead (command_succeeded cmd q) := by
  cases q with
  | nil =>
    intro op hop
    simp [command_succeeded] at hop
  | cons a as =>
    intro op hop
    simp only [command_succeeded] at hop
    split at hop <;> exact h op hop

theorem sentOnlyAtHead_command_failed (retry : Bool) (now timeout : ℚ) (q : List Operation)
    (h : sentOnlyAtHead q) : sentOnlyAtHead (command_failed retry now timeout q) := by
  cases q with
  | nil =>
    intro op hop
    simp [command_failed] at hop
  | cons a as =>
    intro op hop
    simp only [command_failed] at hop
    split at hop
    · exact h op hop
    · split at hop
      · exact h op hop
      · split at hop <;> exact h op hop

theorem sentOnlyAtHead_processPass (now : ℚ) (q : List Operation) :
    sentOnlyAtHead q → sentOnlyAtHead (processPass now q).1 := by
  induction q using processPass.induct now with
  | case1 =>
    intro _
    rw [processPass.eq_def]
    exact sentOnlyAtHead_nil
  | case2 op rest hs hexp =>
    intro h
    rw [processPass.eq_def]
    simp [hs, hexp]
    intro x hx
    exact h x hx
  | case3 op rest hs hexp =>
    intro h
    rw [processPass.eq_def]
    simp [hs, hexp]
    intro x hx
    exact h x hx
  | case4 op rest hs hq ih =>
    intro h
    rw [processPass.eq_def]
    simp [hs, hq]
    exact ih fun x hx => h x hx
  | case5 op rest hs hq hsu ih =>
    intro h
    rw [processPass.eq_def]
    simp [hs, hq, hsu]
    exact ih fun x hx => h x (List.mem_of_mem_tail hx)
  | case6 op rest hs hq hsu hr hexp ih =>
    intro h
    rw [processPass.eq_def]
    simp [hs, hq, hsu, hr, hexp]
    exact ih fun x hx => h x hx
  | case7 op rest hs hq hsu hr hexp =>
    intro h
    rw [processPass.eq_def]
    simp [hs, hq, hsu, hr, hexp]
    intro x hx
    exact h x hx
  | case8 op rest hs hq hsu hr ih =>
    intro h
    rw [processPass.eq_def]
    simp [hs, hq, hsu, hr]
    exact ih fun x hx => h x (List.mem_of_mem_tail hx)

theorem sentOnlyAtHead_applyEvent (timeout : ℚ) (q : List Operation) (e : QueueEvent)
    (h : sentOnlyAtHead q) : sentOnlyAtHead (applyEvent timeout q e) := by
  cases e with
  | enqueue cmd data code now => exact sentOnlyAtHead_queue_command cmd data code now timeout q h
  | ack cmd => exact sentOnlyAtHead_command_succeeded cmd q h
  | nak retry now => exact sentOnlyAtHead_command_failed retry now timeout q h
  | pass now => exact sentOnlyAtHead_processPass now q h

theorem sentOnlyAtHead_runEvents (timeout : ℚ) (es : List QueueEvent) :
    sentOnlyAtHead (runEvents timeout es) := by
  suffices hgen : ∀ q, sentOnlyAtHead q → sentOnlyAtHead (es.foldl (applyEvent timeout) q) by
    exact hgen [] sentOnlyAtHead_nil
  induction es with
  | nil => intro q h; exact h
  | cons e es ih =>
    intro q h
    exact ih (applyEvent timeout q e) (sentOnlyAtHead_applyEvent timeout q e h)

/-- In a queue satisfying the invariant, any index holding a SENT operation
is the head index. -/
theorem sentOnlyAtHead_index (q : List Operation) (hq : sentOnlyAtHead q) (i : ℕ)
    (h : i < q.length) (hS : (q.get ⟨i, h⟩).state = OpState.sent) : i = 0 := by
  cases i with
  | zero => rfl
  | succ j =>
    exfalso
    cases q with
    | nil => simp at h
    | cons a as =>
      have hj : j < as.length := by simpa using h
      exact hq (as.get ⟨j, hj⟩) (as.get_mem j hj) hS

/-- C4: for every interleaving of `queue_command`, `command_succeeded` and
`command_failed` calls with passes of the command-processor loop (starting
from an empty queue), at most one operation is in state SENT at any time,
and when one exists it is the head of the queue: any index holding a SENT
operation is index 0. -/
theorem C4_sent_only_at_head (timeout : ℚ) (es : List QueueEvent) (i : ℕ)
    (h : i < (runEvents timeout es).length)
    (hS : ((runEvents timeout es).get ⟨i, h⟩).state = OpState.sent) : i = 0 :=
  sentOnlyAtHead_index (runEvents timeout es) (sentOnlyAtHead_runEvents timeout es) i h hS

/-- C4 witness: a concrete interleaving — enqueue then one processor pass —
yields a queue whose single operation is SENT at the head, and the theorem
applies to it. -/
theorem C4_sent_only_at_head_witness :
    (runEvents 20 [QueueEvent.enqueue "A".toList "1".toList none 0, QueueEvent.pass 0]).length = 1
    ∧ (runEvents 20 [QueueEvent.enqueue "A".toList "1".toList none 0,
        QueueEvent.pass 0]).headI.state = OpState.sent
    ∧ (0 : ℕ) = 0 := by
  have hrun : runEvents 20 [QueueEvent.enqueue "A".toList "1".toList none 0, QueueEvent.pass 0]
      = [Operation.mk "A".toList "1".toList none OpState.sent (1/10) (0 + 20)] := by
    simp [runEvents, applyEvent, queue_command, processPass]
    norm_num
  have hlen : 0 < (runEvents 20 [QueueEvent.enqueue "A".toList "1".toList none 0,
      QueueEvent.pass 0]).length := by
    rw [hrun]
    simp
  have hS : ((runEvents 20 [QueueEvent.enqueue "A".toList "1".toList none 0,
      QueueEvent.pass 0]).get ⟨0, hlen⟩).state = OpState.sent := by
    rw [List.get_of_eq hrun]
    rfl
  refine ⟨by rw [hrun]; rfl, by rw [hrun]; rfl,
    C4_sent_only_at_head 20 [QueueEvent.enqueue "A".toList "1".toList none 0,
      QueueEvent.pass 0] 0 hlen hS⟩


theorem foldlHex_isSome :
    ∀ (s : PyStr), (∀ c ∈ s, isHexDigit c = true) → ∀ a : ℕ,
      (s.foldl (fun acc c => acc.bind fun x => (hexDigitVal c).map fun d => 16 * x + d)
        (some a)).isSome := by
  intro s
  induction s with
  | nil => intro _ a; rfl
  | cons c cs ih =>
    intro hhex a
    have hc : (hexDigitVal c).isSome := by
      have := hhex c (List.mem_cons_self c cs)
      simpa [isHexDigit] using this
    obtain ⟨d, hd⟩ := Option.isSome_iff_exists.mp hc
    simp only [List.foldl_cons, Option.some_bind, hd, Option.map_some']
    exact ih (fun x hx => hhex x (List.mem_cons_of_mem c hx)) (16 * a + d)

theorem parseHex_isSome (s : PyStr) (hne : s ≠ []) (hhex : ∀ c ∈ s, isHexDigit c = true) :
    (parseHex s).isSome := by
  rw [parseHex, if_neg hne]
  exact foldlHex_isSome s hhex 0

theorem chunk4_mem : ∀ (s w : PyStr), w ∈ chunk4 s → w.length = 4 ∧ ∀ c ∈ w, c ∈ s
  | a :: b :: c :: d :: rest, w, hw => by
    rw [show chunk4 (a :: b :: c :: d :: rest) = [a, b, c, d] :: chunk4 rest from rfl] at hw
    rcases List.mem_cons.mp hw with h | h
    · subst h
      refine ⟨rfl, ?_⟩
      intro x hx
      simp only [List.mem_cons] at hx ⊢
      tauto
    · obtain ⟨hlen, hsub⟩ := chunk4_mem rest w h
      refine ⟨hlen, fun x hx => ?_⟩
      have := hsub x hx
      simp only [List.mem_cons]
      tauto
  | [], w, hw => by simp [chunk4] at hw
  | [a], w, hw => by simp [chunk4] at hw
  | [a, b], w, hw => by simp [chunk4] at hw
  | [a, b, c], w, hw => by simp [chunk4] at hw

theorem zoneDumpGo_spec :
    ∀ (ws : List PyStr) (z : ℕ), (∀ w ∈ ws, (parseHex (swapHalves w)).isSome) →
      ∃ items, zoneDumpGo z ws = some items ∧ items.length = ws.length
        ∧ ∀ i, ∀ hi : i < items.length,
            items.get ⟨i, hi⟩
              = ZoneInfo.mk (z + i)
                  (if (65536 - (((parseHex (swapHalves (ws.getD i []))).getD 0 : ℕ) : ℤ)) * 5 < 30
                   then "open".toList else "closed".toList)
                  ((65536 - (((parseHex (swapHalves (ws.getD i []))).getD 0 : ℕ) : ℤ)) * 5) := by
  intro ws
  induction ws with
  | nil =>
    intro z _
    refine ⟨[], rfl, rfl, ?_⟩
    intro i hi
    simp at hi
  | cons w ws ih =>
    intro z hall
    obtain ⟨v, hv⟩ := Option.isSome_iff_exists.mp (hall w (List.mem_cons_self w ws))
    obtain ⟨items, hgo, hlen, hidx⟩ := ih (z + 1) fun x hx => hall x (List.mem_cons_of_mem w hx)
    refine ⟨ZoneInfo.mk z
        (if (65536 - ((v : ℕ) : ℤ)) * 5 < 30 then "open".toList else "closed".toList)
        ((65536 - ((v : ℕ) : ℤ)) * 5) :: items, ?_, ?_, ?_⟩
    · simp only [zoneDumpGo, zoneEntry, hv, Option.map_some', hgo]
    · simp [hlen]
    · intro i hi
      cases i with
      | zero =>
        simp [hv]
      | succ j =>
        have hj : j < items.length := by simpa using hi
        have := hidx j hj
        simp only [List.get_cons_succ, List.getD_cons_succ]
        rw [this]
        have hz : z + 1 + j = z + (j + 1) := by omega
        rw [hz]

/-- C8: for every hex input string, `convertZoneDump` splits it into
consecutive 4-hex-digit words numbered as zones from 1; for each word it
swaps the two 2-hex-digit halves, parses the result as an unsigned 16-bit
value `v`, computes `seconds = (65536 − v) × 5`, and reports status
`'open'` iff `seconds < 30`, `'closed'` otherwise; in particular the word
`"FFFF"` (which byte-swaps to `"FFFF"`, value 65535) yields seconds 5 and
status open, and `"0000"` yields seconds 327680 and status closed. -/
theorem C8_zone_timer_decode :
    (∀ s : PyStr, (∀ c ∈ s, isHexDigit c = true) →
      ∃ items, convertZoneDump s = some items
        ∧ items.length = (chunk4 s).length
        ∧ ∀ i, ∀ hi : i < items.length,
            (items.get ⟨i, hi⟩).zone = i + 1
            ∧ (items.get ⟨i, hi⟩).seconds = (65536 - ((wordVal s i : ℕ) : ℤ)) * 5
            ∧ ((items.get ⟨i, hi⟩).status = "open".toList ↔ (items.get ⟨i, hi⟩).seconds < 30)
            ∧ ((items.get ⟨i, hi⟩).status = "closed".toList
                ↔ ¬(items.get ⟨i, hi⟩).seconds < 30))
    ∧ convertZoneDump "FFFF".toList = some [ZoneInfo.mk 1 "open".toList 5]
    ∧ convertZoneDump "0000".toList = some [ZoneInfo.mk 1 "closed".toList 327680] := by
  refine ⟨?_, by decide, by decide⟩
  intro s hhex
  have hall : ∀ w ∈ chunk4 s, (parseHex (swapHalves w)).isSome := by
    intro w hw
    obtain ⟨hlen, hsub⟩ := chunk4_mem s w hw
    have h4 : (swapHalves w).length = 4 := by
      simp [swapHalves, hlen]
    apply parseHex_isSome
    · intro hnil
      rw [hnil] at h4
      simp at h4
    · intro c hc
      rcases List.mem_append.mp hc with h | h
      · exact hhex c (hsub c (List.mem_of_mem_drop h))
      · exact hhex c (hsub c (List.mem_of_mem_take h))
  obtain ⟨items, hgo, hlen, hidx⟩ := zoneDumpGo_spec (chunk4 s) 1 hall
  refine ⟨items, hgo, hlen, ?_⟩
  intro i hi
  have h := hidx i hi
  rw [h]
  refine ⟨Nat.add_comm 1 i, by simp [wordVal], ?_, ?_⟩
  · by_cases hlt :
      (65536 - (((parseHex (swapHalves ((chunk4 s).getD i []))).getD 0 : ℕ) : ℤ)) * 5 < 30
    · simp [hlt]
    · simp only [if_neg hlt]
      constructor
      · intro hcl
        exact absurd hcl (by decide)
      · intro hcl
        exact absurd hcl hlt
  · by_cases hlt :
      (65536 - (((parseHex (swapHalves ((chunk4 s).getD i []))).getD 0 : ℕ) : ℤ)) * 5 < 30
    · simp only [if_pos hlt]
      constructor
      · intro hcl
        exact absurd hcl (by decide)
      · intro hcl
        exact absurd hlt hcl
    · simp [hlt]

/-- C8 witness: the general statement applied to the concrete hex input
`"FFFF0000"`. -/
theorem C8_zone_timer_decode_witness :
    (∀ c ∈ "FFFF0000".toList, isHexDigit c = true)
    ∧ ∃ items, convertZoneDump "FFFF0000".toList = some items
        ∧ items.length = (chunk4 "FFFF0000".toList).length
        ∧ ∀ i, ∀ hi : i < items.length,
            (items.get ⟨i, hi⟩).zone = i + 1
            ∧ (items.get ⟨i, hi⟩).seconds
                = (65536 - ((wordVal "FFFF0000".toList i : ℕ) : ℤ)) * 5
            ∧ ((items.get ⟨i, hi⟩).status = "open".toList ↔ (items.get ⟨i, hi⟩).seconds < 30)
            ∧ ((items.get ⟨i, hi⟩).status = "closed".toList
                ↔ ¬(items.get ⟨i, hi⟩).seconds < 30) :=
  ⟨by decide, C8_zone_timer_decode.1 "FFFF0000".toList (by decide)⟩

/-- C10: on a full 16-character payload whose eight 2-character codes all
resolve in the status table, `handle_partition_state_change` overwrites the
top-level `arm`/`disarm`/`cancel` keys once per partition in ascending
order, so the final values are determined by partition 8 alone: `arm` is
true iff partition 8 is not armed, `disarm` is true iff partition 8 is
armed, and `cancel` is true iff partition 8's code maps to
`EXIT_ENTRY_DELAY` — partitions 1–7 have no effect on these three keys. -/
theorem C10_top_level_keys_from_partition8 (table : PyStr → Option PyStr) (data : PyStr)
    (st : AlarmState) (n8 : PyStr)
    (hlen : data.length = 16)
    (hall : ∀ i, i < 8 → (table (sliceCode data i)).isSome)
    (h8 : table (sliceCode data 7) = some n8) :
    ∃ st', handle_partition_state_change table data st = some st'
      ∧ st'.arm = !isArmedName n8
      ∧ st'.disarm = isArmedName n8
      ∧ st'.cancel = decide (n8 = "EXIT_ENTRY_DELAY".toList) := by
  obtain ⟨n0, h0⟩ := Option.isSome_iff_exists.mp (hall 0 (by omega))
  obtain ⟨n1, h1⟩ := Option.isSome_iff_exists.mp (hall 1 (by omega))
  obtain ⟨n2, h2⟩ := Option.isSome_iff_exists.mp (hall 2 (by omega))
  obtain ⟨n3, h3⟩ := Option.isSome_iff_exists.mp (hall 3 (by omega))
  obtain ⟨n4, h4⟩ := Option.isSome_iff_exists.mp (hall 4 (by omega))
  obtain ⟨n5, h5⟩ := Option.isSome_iff_exists.mp (hall 5 (by omega))
  obtain ⟨n6, h6⟩ := Option.isSome_iff_exists.mp (hall 6 (by omega))
  rw [handle_partition_state_change, show List.range 8 = [0, 1, 2, 3, 4, 5, 6, 7] from rfl]
  simp only [partitionGo, h0, h1, h2, h3, h4, h5, h6, h8]
  refine ⟨_, rfl, ?_, ?_, ?_⟩ <;> simp [partitionStep]

/-- C10 witness: the concrete payload `"0000000000000001"` with a table
mapping `"00"` to READY and `"01"` to ARMED_AWAY. -/
theorem C10_top_level_keys_from_partition8_witness :
    ("0000000000000001".toList.length = 16)
    ∧ ∃ st', handle_partition_state_change demoStatusTable "0000000000000001".toList
          demoAlarmState = some st'
        ∧ st'.arm = !isArmedName "ARMED_AWAY".toList
        ∧ st'.disarm = isArmedName "ARMED_AWAY".toList
        ∧ st'.cancel = decide ("ARMED_AWAY".toList = "EXIT_ENTRY_DELAY".toList) :=
  ⟨by decide, C10_top_level_keys_from_partition8 demoStatusTable "0000000000000001".toList
    demoAlarmState "ARMED_AWAY".toList (by decide) (by decide) (by decide)⟩
